import Mathlib

/-!
Verification of the Drug-GPT analysis orchestration pipeline.

The TypeScript services under src/services and the client pipeline in
src/components/analysis-form.tsx are shallowly embedded as pure Lean
functions.  Asynchronous external calls are modelled by passing an explicit
outcome value for each upstream response; network activity and the mandated
inter-call delay are recorded in an explicit event trace.  JavaScript string
fields of upstream JSON payloads are modelled as Option values, where none
stands for an absent or falsy (empty) field, and numeric string fields are
modelled by the JavaScript number their text parses to (JsNum, which keeps
NaN and the infinities distinct from finite values, as parseFloat does).
-/

/-- A JavaScript number as produced by parseFloat: NaN, an infinity, or a
finite value (modelled as a rational). -/
inductive JsNum where
  | nan
  | inf
  | neginf
  | fin (q : ℚ)
deriving DecidableEq

/-- Outcome of one fetch-based upstream call: the fetch promise rejected
(transport error, also covering a thrown body read), the response arrived
with a non-2xx status (response.ok false), the 2xx body failed to parse as
the expected JSON shape, or a parsed payload was obtained. -/
inductive FetchOutcome (α : Type) where
  | transportError
  | httpError (status : Nat)
  | malformedBody
  | ok (payload : α)

/-- Events of one pipeline run, in order: the CID lookup request, the
enforced delay (milliseconds), the property-fetch request, and the call into
the analyzeDrugCandidate flow. -/
inductive PipelineEvent where
  | cidFetch
  | delay (ms : Nat)
  | propFetch
  | analyzeCall
deriving DecidableEq

/-- The JavaScript whitespace class (the class the regex escape s denotes,
which is also the set the String trim method removes): space, tab, line
feed, vertical tab, form feed, carriage return, and the Unicode space
separators, line separators and byte-order mark recognized by
JavaScript. -/
def jsWhitespace (c : Char) : Bool :=
  c = ' ' ∨ c = '\t' ∨ c = '\n' ∨ c = '\x0b' ∨ c = '\x0c' ∨ c = '\r' ∨
  c = ' ' ∨ c = ' ' ∨
  (' ' ≤ c ∧ c ≤ ' ') ∨
  c = ' ' ∨ c = ' ' ∨ c = ' ' ∨ c = ' ' ∨
  c = '　' ∨ c = '﻿'

/-- Whether a JavaScript string trims to the empty string, that is,
whether every character of it is JavaScript whitespace.  This models the
check that the trimmed string equals the empty string. -/
def trimsToEmpty (s : String) : Bool :=
  s.toList.all jsWhitespace

namespace Pubchem

/-- src/services/pubchem.ts, interface Molecule. -/
structure Molecule where
  cid : Int
  molecularFormula : String
  iupacName : Option String
  canonicalSmiles : String
  molecularWeight : JsNum
deriving DecidableEq

/-- Parsed JSON body of the cids lookup: data.IdentifierList.CID.
none models a falsy data object or a missing IdentifierList or CID field;
a list entry is some n when the entry is a JavaScript number n, none when
it is a non-number value (the typeof check in the source). -/
structure CidPayload where
  cids : Option (List (Option Int))

/-- One entry of data.PropertyTable.Properties.  Each field is none when
absent or falsy; molecularWeight is the parsed numeric value of the
non-empty MolecularWeight field text. -/
structure PropRecord where
  cid : Option Int
  molecularFormula : Option String
  iupacName : Option String
  canonicalSmiles : Option String
  molecularWeight : Option JsNum

/-- Parsed JSON body of the property fetch: data.PropertyTable.Properties.
none models a falsy data object or a missing PropertyTable or Properties. -/
structure PropPayload where
  properties : Option (List PropRecord)

/-- Validation of the cids response body, following the branch structure of
getCidBySmiles in src/services/pubchem.ts: every error outcome and every
malformed or empty identifier list yields null; a non-number or
non-positive leading CID yields null; otherwise the CID is returned. -/
def parseCidResponse : FetchOutcome CidPayload → Option Int
  | .transportError => none
  | .httpError _ => none
  | .malformedBody => none
  | .ok p =>
    match p.cids with
    | none => none
    | some [] => none
    | some (none :: _) => none
    | some (some c :: _) => if c ≤ 0 then none else some c

/-- src/services/pubchem.ts, getCidBySmiles.  An empty (after trimming)
SMILES string is rejected before any fetch; otherwise one fetch is issued
and its response validated.  The second component is the event trace. -/
def getCidBySmiles (smiles : String) (resp : FetchOutcome CidPayload) :
    Option Int × List PipelineEvent :=
  if trimsToEmpty smiles then (none, [])
  else (parseCidResponse resp, [.cidFetch])

/-- src/services/pubchem.ts, getPropertiesByCid.  A non-positive CID is
rejected before any fetch; otherwise one fetch is issued, the first
property record is validated for the essential truthy fields, the weight is
checked against NaN, and the Molecule object is built and re-checked. -/
def getPropertiesByCid (cid : Int) (resp : FetchOutcome PropPayload) :
    Option Molecule × List PipelineEvent :=
  if cid ≤ 0 then (none, [])
  else
    let mol : Option Molecule :=
      match resp with
      | .transportError => none
      | .httpError _ => none
      | .malformedBody => none
      | .ok p =>
        match p.properties with
        | none => none
        | some [] => none
        | some (pr :: _) =>
          match pr.cid, pr.molecularFormula, pr.canonicalSmiles,
              pr.molecularWeight with
          | some c, some f, some s, some w =>
            if c = 0 ∨ f = "" ∨ s = "" then none
            else if w = JsNum.nan then none
            else
              let molecule : Molecule :=
                { cid := c, molecularFormula := f, iupacName := pr.iupacName,
                  canonicalSmiles := s, molecularWeight := w }
              if molecule.cid = 0 ∨ molecule.molecularFormula = "" ∨
                  molecule.canonicalSmiles = "" then none
              else some molecule
          | _, _, _, _ => none
    (mol, [.propFetch])

/-- The pair of upstream responses one two-stage lookup will observe. -/
structure PubChemEnv where
  cidResp : FetchOutcome CidPayload
  propResp : FetchOutcome PropPayload

/-- src/services/pubchem.ts, getMoleculeBySmiles: resolve the CID, stop on
failure or a non-positive CID, otherwise wait 200 milliseconds and fetch
the properties. -/
def getMoleculeBySmiles (smiles : String) (env : PubChemEnv) :
    Option Molecule × List PipelineEvent :=
  let step1 := getCidBySmiles smiles env.cidResp
  match step1.1 with
  | none => (none, step1.2)
  | some cid =>
    if cid ≤ 0 then (none, step1.2)
    else
      let step2 := getPropertiesByCid cid env.propResp
      (step2.1, step1.2 ++ [.delay 200] ++ step2.2)

end Pubchem

namespace Drugbank

/-- src/services/drugbank.ts, interface Drug (ChEMBL-backed entry).  The
chemblId field is copied from the payload without validation, so it is an
Option here (undefined when the payload lacks it). -/
structure Drug where
  chemblId : Option String
  name : String
  maxPhase : Option ℚ
  molecularWeight : Option ℚ
  molecularFormula : Option String
  description : Option String
deriving DecidableEq

/-- One entry of the ChEMBL molecule list.  String fields are none when
absent or falsy (empty). -/
structure ChemblMolecule where
  chembl_id : Option String
  pref_name : Option String
  max_phase : Option ℚ
  mol_weight : Option ℚ
  mol_formula : Option String
  indication : Option String
  therapeutic_flag : Bool

/-- Parsed JSON body of the ChEMBL molecule query: data.molecules.
none models a falsy data object or a missing molecules field. -/
structure ChemblPayload where
  molecules : Option (List ChemblMolecule)

/-- Outcome of one axios.get call: the promise rejected (transport error or
a non-2xx status, which axios turns into a rejection by default), or it
resolved with a status code and parsed body. -/
inductive AxiosOutcome (α : Type) where
  | rejected
  | resolved (status : Nat) (data : α)

/-- The description string built by getDrugByName when the molecule has an
indication or a therapeutic flag.  The indication text defaults to the
no-specific-indication sentence, and the Therapeutic marker is appended
when the flag is set. -/
def chemblDescription (m : ChemblMolecule) : Option String :=
  if m.indication.isSome ∨ m.therapeutic_flag then
    some ((match m.indication with
            | some i => i
            | none => "No specific indication available.") ++ " " ++
          (if m.therapeutic_flag then "Therapeutic." else ""))
  else none

/-- src/services/drugbank.ts, getDrugByName: query ChEMBL, fold every
rejection, non-200 status, malformed body and empty result list into null,
and normalize the first molecule into a Drug. -/
def getDrugByName (drugName : String) (resp : AxiosOutcome ChemblPayload) :
    Option Drug :=
  match resp with
  | .rejected => none
  | .resolved status data =>
    if status ≠ 200 then none
    else
      match data.molecules with
      | none => none
      | some [] => none
      | some (m :: _) =>
        some
          { chemblId := m.chembl_id,
            name := match m.pref_name with
                    | some s => if s = "" then drugName else s
                    | none => drugName,
            maxPhase := m.max_phase,
            molecularWeight := m.mol_weight,
            molecularFormula := m.mol_formula,
            description := chemblDescription m }

end Drugbank

namespace Deeppurpose

/-- src/services/deeppurpose.ts, interface DeepPurposeResult. -/
structure DeepPurposeResult where
  predictedPurpose : String
  confidence : Option ℚ
deriving DecidableEq

/-- src/services/deeppurpose.ts, MOCK_DEEPPURPOSE_RESULTS, as the keyed
lookup the object literal performs. -/
def mockDeepPurposeLookup (smiles : String) : Option DeepPurposeResult :=
  if smiles = "c1ccccc1" then
    some { predictedPurpose := "Predicted as a potential solvent or basic aromatic building block. Low likelihood of direct therapeutic purpose based on structure alone.",
           confidence := some (6/10) }
  else if smiles = "CC(=O)OC1=CC=CC=C1C(=O)O" then
    some { predictedPurpose := "Predicted as an anti-inflammatory agent, likely targeting COX enzymes. Potential analgesic and antipyretic properties.",
           confidence := some (85/100) }
  else if smiles = "CN1CCN(CC1)C(C1=CC=CC=C1)C1=CC=C(Cl)C=C1" then
    some { predictedPurpose := "Predicted as a potential H1 histamine receptor antagonist (antihistamine). May possess anticholinergic properties.",
           confidence := some (78/100) }
  else if smiles = "CCN(CC)CCCC(C)NC1=C2C=CC(=CC2=NC=C1)Cl" then
    some { predictedPurpose := "Predicted as an antimalarial agent, potentially interfering with heme detoxification in Plasmodium parasites. May also exhibit anti-inflammatory and antiviral properties.",
           confidence := some (88/100) }
  else none

/-- The fixed generic prediction returned for unknown strings longer than
ten characters. -/
def genericPrediction : DeepPurposeResult :=
  { predictedPurpose := "Generic prediction: Potential biological activity detected based on structural features. Further investigation recommended.",
    confidence := some (1/2) }

/-- src/services/deeppurpose.ts, getDeepPurposeAnalysis (mock): look the
SMILES up in the mock table; on a miss return the generic prediction when
the string is longer than ten characters, otherwise null. -/
def getDeepPurposeAnalysis (smiles : String) : Option DeepPurposeResult :=
  match mockDeepPurposeLookup smiles with
  | some result => some result
  | none =>
    if smiles.length > 10 then some genericPrediction
    else none

end Deeppurpose

namespace AnalysisForm

/-- Character class A-Z. -/
def upperAZ (c : Char) : Bool := 'A' ≤ c ∧ c ≤ 'Z'

/-- Character class a-z. -/
def lowerAZ (c : Char) : Bool := 'a' ≤ c ∧ c ≤ 'z'

/-- Character class 0-9. -/
def digit09 (c : Char) : Bool := '0' ≤ c ∧ c ≤ '9'

/-- Character class 2-9. -/
def digit29 (c : Char) : Bool := '2' ≤ c ∧ c ≤ '9'

/-- The negative-lookahead class of the second alternative: a lowercase or
uppercase letter or an opening parenthesis. -/
def letterOrParen (c : Char) : Bool := lowerAZ c ∨ upperAZ c ∨ c = '('

/-- Whether the tail of the pattern matches at this position, after the
leading uppercase letter and the optional lowercase letter have been
consumed: either two or more digits follow, or a digit 2-9 follows that is
not itself followed by a letter or an opening parenthesis. -/
def formulaTail : List Char → Bool
  | [] => false
  | [c] => digit29 c
  | c :: d :: _ => (digit09 c ∧ digit09 d) ∨ (digit29 c ∧ ¬ letterOrParen d)

/-- The part of the pattern after the leading uppercase letter: an optional
lowercase letter, then the tail.  Both readings of the optional letter are
tried, as a backtracking matcher would. -/
def formulaAfterUpper : List Char → Bool
  | [] => false
  | c :: rest => (lowerAZ c ∧ formulaTail rest) ∨ formulaTail (c :: rest)

/-- Whether the formula pattern matches at some position of the string. -/
def formulaScan : List Char → Bool
  | [] => false
  | c :: rest => (upperAZ c ∧ formulaAfterUpper rest) ∨ formulaScan rest

/-- src/components/analysis-form.tsx, seemsLikeFormula: a string with any
whitespace is never formula-like; otherwise the element-symbol-plus-
multiplicity pattern is searched anywhere in the string. -/
def seemsLikeFormula (input : String) : Bool :=
  if input.toList.any jsWhitespace then false
  else formulaScan input.toList

/-- src/components/analysis-form.tsx, the form field values. -/
structure FormData where
  smiles : String
  targetProtein : Option String
  query : String

/-- src/components/analysis-form.tsx, formSchema: the SMILES field needs at
least one character and the query at least five; the target protein is
optional. -/
def formSchemaAccepts (values : FormData) : Bool :=
  1 ≤ values.smiles.length ∧ 5 ≤ values.query.length

/-- src/components/analysis-form.tsx, AnalyzeDrugCandidateOutput as the
form consumes it: a synthesized narrative plus the two optional aggregate
slots. -/
structure AnalyzeDrugCandidateOutput where
  synthesizedAnalysis : String
  chemblData : Option Drugbank.Drug
  deepPurposeData : Option Deeppurpose.DeepPurposeResult

/-- Outcome of the awaited analyzeDrugCandidate call: a returned output, or
a thrown error with its message. -/
inductive AnalyzeOutcome where
  | ok (out : AnalyzeDrugCandidateOutput)
  | err (msg : String)

/-- The user-facing description chosen for the destructive PubChem toast:
either the message saying the input looks like a molecular formula rather
than a SMILES string, or the message saying the molecule details could not
be retrieved. -/
inductive ErrorDescription where
  | looksLikeFormula (smiles : String)
  | couldNotRetrieve (smiles : String)
deriving DecidableEq

/-- The toasts the submit handler can raise, in order of appearance. -/
inductive ToastMsg where
  | pubchemError (desc : ErrorDescription)
  | pubchemFetched (cid : Int)
  | analysisComplete
  | analysisFailed (msg : String)
deriving DecidableEq

/-- The loading stages tracked by the form. -/
inductive LoadingStage where
  | idle
  | pubchem
  | analysis
deriving DecidableEq

/-- The component state after one submit handler run, together with the
trace of pipeline events it caused. -/
structure FormState where
  analysisResult : Option AnalyzeDrugCandidateOutput
  pubChemDetails : Option Pubchem.Molecule
  isLoading : Bool
  loadingStage : LoadingStage
  error : Option String
  activeTab : String
  toasts : List ToastMsg
  trace : List PipelineEvent

/-- src/components/analysis-form.tsx, onSubmit.  capturedStage is the value
of the loadingStage state variable captured by the closure at the render
that invoked the handler (idle when submission starts from a quiescent
form); the catch block branches on it.  Resolution failure returns before
the analyze call and picks the toast description with seemsLikeFormula; a
thrown analyze call keeps the fetched PubChem details and clears only the
analysis result. -/
def onSubmit (values : FormData) (env : Pubchem.PubChemEnv)
    (analyze : AnalyzeOutcome) (capturedStage : LoadingStage) : FormState :=
  let step1 := Pubchem.getMoleculeBySmiles values.smiles env
  match step1.1 with
  | none =>
    let desc :=
      if seemsLikeFormula values.smiles then
        ErrorDescription.looksLikeFormula values.smiles
      else ErrorDescription.couldNotRetrieve values.smiles
    { analysisResult := none,
      pubChemDetails := none,
      isLoading := false,
      loadingStage := .idle,
      error := some "Failed to fetch PubChem data. Check SMILES validity.",
      activeTab := "pubchem",
      toasts := [.pubchemError desc],
      trace := step1.2 }
  | some moleculeData =>
    match analyze with
    | .ok result =>
      { analysisResult := some result,
        pubChemDetails := some moleculeData,
        isLoading := false,
        loadingStage := .idle,
        error := none,
        activeTab := "analysis",
        toasts := [.pubchemFetched moleculeData.cid, .analysisComplete],
        trace := step1.2 ++ [.analyzeCall] }
    | .err msg =>
      { analysisResult := none,
        pubChemDetails := some moleculeData,
        isLoading := false,
        loadingStage := .idle,
        error := some msg,
        activeTab := if capturedStage = .pubchem then "pubchem" else "analysis",
        toasts := [.pubchemFetched moleculeData.cid, .analysisFailed msg],
        trace := step1.2 ++ [.analyzeCall] }

/-- The react-hook-form handleSubmit wrapper: the submit handler only runs
when the zod schema accepts the values; otherwise nothing happens and no
event is emitted. -/
def handleSubmit (values : FormData) (env : Pubchem.PubChemEnv)
    (analyze : AnalyzeOutcome) (capturedStage : LoadingStage) :
    Option FormState :=
  if formSchemaAccepts values then some (onSubmit values env analyze capturedStage)
  else none

end AnalysisForm

namespace Aggregator

/-- Modelled from the spec: the property-prediction record of the data
model (named numeric properties, each independently optional); the
property-prediction adapter itself is not among the source files. -/
structure PropertyPrediction where
  logP : Option ℚ
  solubility : Option ℚ
  toxicityScore : Option ℚ
deriving DecidableEq

/-- Modelled from the spec: the outcome of one secondary lookup — success
with a record, a definite NotFound, or a transient failure. -/
inductive LookupOutcome (α : Type) where
  | success (v : α)
  | notFound
  | transientFailure

/-- Modelled from the spec: a non-success outcome is recorded as an absent
slot; only success populates the slot. -/
def LookupOutcome.toSlot {α : Type} : LookupOutcome α → Option α
  | .success v => some v
  | .notFound => none
  | .transientFailure => none

/-- Modelled from the spec: the composite result of the Fan-out Aggregator,
with the bioactivity, property-prediction and mechanism-prediction slots
each independently nullable. -/
structure AggregateComposite where
  bioactivity : Option Drugbank.Drug
  property : Option PropertyPrediction
  mechanism : Option Deeppurpose.DeepPurposeResult

/-- Modelled from the spec: the Fan-out Aggregator (the flow file behind
analyzeDrugCandidate is not among the source files).  It issues the three
secondary lookups independently and assembles the composite from the three
outcomes, recording an absent field for every non-success and never letting
one outcome influence a sibling slot. -/
def aggregateLookups (bio : LookupOutcome Drugbank.Drug)
    (prop : LookupOutcome PropertyPrediction)
    (mech : LookupOutcome Deeppurpose.DeepPurposeResult) :
    AggregateComposite :=
  { bioactivity := bio.toSlot,
    property := prop.toSlot,
    mechanism := mech.toSlot }

end Aggregator

/-! Helper lemmas shared by the claim theorems. -/

theorem parseCidResponse_pos {r : FetchOutcome Pubchem.CidPayload} {c : Int}
    (h : Pubchem.parseCidResponse r = some c) : 0 < c := by
  unfold Pubchem.parseCidResponse at h
  repeat' split at h
  all_goals simp_all

theorem getCidBySmiles_fst_pos {s : String} {r : FetchOutcome Pubchem.CidPayload}
    {c : Int} (h : (Pubchem.getCidBySmiles s r).1 = some c) : 0 < c := by
  unfold Pubchem.getCidBySmiles at h
  split at h
  · simp at h
  · exact parseCidResponse_pos h

theorem getCidBySmiles_trace (s : String) (r : FetchOutcome Pubchem.CidPayload) :
    (Pubchem.getCidBySmiles s r).2 = [] ∨
    (Pubchem.getCidBySmiles s r).2 = [PipelineEvent.cidFetch] := by
  unfold Pubchem.getCidBySmiles
  split
  · exact Or.inl rfl
  · exact Or.inr rfl

theorem getMoleculeBySmiles_trace (s : String) (env : Pubchem.PubChemEnv) :
    (Pubchem.getMoleculeBySmiles s env).2 = [] ∨
    (Pubchem.getMoleculeBySmiles s env).2 = [PipelineEvent.cidFetch] ∨
    (Pubchem.getMoleculeBySmiles s env).2 =
      [PipelineEvent.cidFetch, PipelineEvent.delay 200, PipelineEvent.propFetch] := by
  by_cases ht : trimsToEmpty s
  · left
    simp [Pubchem.getMoleculeBySmiles, Pubchem.getCidBySmiles, ht]
  · rcases h : Pubchem.parseCidResponse env.cidResp with _ | c
    · right; left
      simp [Pubchem.getMoleculeBySmiles, Pubchem.getCidBySmiles, ht, h]
    · right; right
      have hc := parseCidResponse_pos h
      have hcle : ¬ c ≤ 0 := by omega
      simp [Pubchem.getMoleculeBySmiles, Pubchem.getCidBySmiles,
        Pubchem.getPropertiesByCid, ht, h, hcle]

/-- C1: every external-source adapter lookup folds not-found responses,
non-2xx statuses, malformed payloads and transport errors into a null
result instead of raising them, and a non-null result is a valid record:
the CID lookup only returns positive identifiers, and the mock DeepPurpose
service only returns records with a non-empty prediction text. -/
theorem C1_adapters_fold_failures_to_null :
    (∀ s, (Pubchem.getCidBySmiles s .transportError).1 = none) ∧
    (∀ s status, (Pubchem.getCidBySmiles s (.httpError status)).1 = none) ∧
    (∀ s, (Pubchem.getCidBySmiles s .malformedBody).1 = none) ∧
    (∀ s, (Pubchem.getCidBySmiles s (.ok ⟨none⟩)).1 = none) ∧
    (∀ s r c, (Pubchem.getCidBySmiles s r).1 = some c → 0 < c) ∧
    (∀ cid, (Pubchem.getPropertiesByCid cid .transportError).1 = none) ∧
    (∀ cid status, (Pubchem.getPropertiesByCid cid (.httpError status)).1 = none) ∧
    (∀ cid, (Pubchem.getPropertiesByCid cid .malformedBody).1 = none) ∧
    (∀ cid, (Pubchem.getPropertiesByCid cid (.ok ⟨none⟩)).1 = none) ∧
    (∀ n, Drugbank.getDrugByName n .rejected = none) ∧
    (∀ n status d, status ≠ 200 → Drugbank.getDrugByName n (.resolved status d) = none) ∧
    (∀ n status, Drugbank.getDrugByName n (.resolved status ⟨none⟩) = none) ∧
    (∀ s r, Deeppurpose.getDeepPurposeAnalysis s = some r →
      r.predictedPurpose ≠ "") := by
  refine ⟨?_, ?_, ?_, ?_, ?_, ?_, ?_, ?_, ?_, ?_, ?_, ?_, ?_⟩
  · intro s; unfold Pubchem.getCidBySmiles; split <;> rfl
  · intro s status; unfold Pubchem.getCidBySmiles; split <;> rfl
  · intro s; unfold Pubchem.getCidBySmiles; split <;> rfl
  · intro s; unfold Pubchem.getCidBySmiles; split <;> rfl
  · intro s r c h; exact getCidBySmiles_fst_pos h
  · intro cid; unfold Pubchem.getPropertiesByCid; split <;> rfl
  · intro cid status; unfold Pubchem.getPropertiesByCid; split <;> rfl
  · intro cid; unfold Pubchem.getPropertiesByCid; split <;> rfl
  · intro cid; unfold Pubchem.getPropertiesByCid; split <;> rfl
  · intro n; rfl
  · intro n status d h
    unfold Drugbank.getDrugByName
    simp [h]
  · intro n status
    show (if status ≠ 200 then none else _) = none
    split <;> rfl
  · intro s r h
    unfold Deeppurpose.getDeepPurposeAnalysis at h
    rcases hm : Deeppurpose.mockDeepPurposeLookup s with _ | v
    · rw [hm] at h
      simp only [] at h
      split at h
      · injection h with h
        subst h
        decide
      · exact absurd h (by simp)
    · rw [hm] at h
      simp only [Option.some.injEq] at h
      subst h
      unfold Deeppurpose.mockDeepPurposeLookup at hm
      repeat' split at hm
      all_goals first
        | (injection hm with hm; subst hm; decide)
        | simp_all

/-- Witness for C1 at concrete inputs: a valid payload gives the positive
CID 5, and a 404 status folds to null. -/
theorem C1_witness :
    ((0:Int) < 5 ∧
     Drugbank.getDrugByName "aspirin" (.resolved 404 ⟨none⟩) = none ∧
     (Pubchem.getCidBySmiles "CCO" .transportError).1 = none) := by
  refine ⟨?_, ?_, ?_⟩
  · exact C1_adapters_fold_failures_to_null.2.2.2.2.1 "CCO"
      (.ok ⟨some [some 5]⟩) 5 (by decide)
  · exact C1_adapters_fold_failures_to_null.2.2.2.2.2.2.2.2.2.2.1 "aspirin"
      404 ⟨none⟩ (by decide)
  · exact C1_adapters_fold_failures_to_null.1 "CCO"

theorem analyzeCall_not_mem_pubchem_trace (s : String) (env : Pubchem.PubChemEnv) :
    PipelineEvent.analyzeCall ∉ (Pubchem.getMoleculeBySmiles s env).2 := by
  rcases getMoleculeBySmiles_trace s env with h | h | h <;> rw [h] <;> decide

/-- C2: when the identifier lookup yields no valid identifier, the
two-stage lookup fails without issuing the property fetch, and the submit
pipeline then issues no analysis call and produces no analysis result —
resolution failure is fatal to the whole run. -/
theorem C2_resolution_failure_is_fatal :
    (∀ s env, (Pubchem.getCidBySmiles s env.cidResp).1 = none →
      Pubchem.getMoleculeBySmiles s env =
        (none, (Pubchem.getCidBySmiles s env.cidResp).2) ∧
      PipelineEvent.propFetch ∉ (Pubchem.getMoleculeBySmiles s env).2) ∧
    (∀ values env analyze capturedStage,
      (Pubchem.getMoleculeBySmiles values.smiles env).1 = none →
      (AnalysisForm.onSubmit values env analyze capturedStage).analysisResult = none ∧
      (AnalysisForm.onSubmit values env analyze capturedStage).pubChemDetails = none ∧
      (AnalysisForm.onSubmit values env analyze capturedStage).trace =
        (Pubchem.getMoleculeBySmiles values.smiles env).2 ∧
      PipelineEvent.analyzeCall ∉
        (AnalysisForm.onSubmit values env analyze capturedStage).trace) := by
  constructor
  · intro s env h
    have heq : Pubchem.getMoleculeBySmiles s env =
        (none, (Pubchem.getCidBySmiles s env.cidResp).2) := by
      simp only [Pubchem.getMoleculeBySmiles, h]
    refine ⟨heq, ?_⟩
    rw [heq]
    rcases getCidBySmiles_trace s env.cidResp with h2 | h2 <;> rw [h2] <;> decide
  · intro values env analyze capturedStage h
    have hmem := analyzeCall_not_mem_pubchem_trace values.smiles env
    simp only [AnalysisForm.onSubmit, h]
    exact ⟨trivial, trivial, trivial, hmem⟩

/-- Witness for C2 at a concrete input: a transport error in the identifier
lookup stops the run with no property fetch and no analysis call. -/
theorem C2_witness :
    Pubchem.getMoleculeBySmiles "CCO" ⟨.transportError, .ok ⟨none⟩⟩ =
      (none, [PipelineEvent.cidFetch]) ∧
    (AnalysisForm.onSubmit ⟨"CCO", none, "analyze it"⟩
      ⟨.transportError, .ok ⟨none⟩⟩ (.err "x") .idle).analysisResult = none := by
  constructor
  · exact (C2_resolution_failure_is_fatal.1 "CCO"
      ⟨.transportError, .ok ⟨none⟩⟩ (by decide)).1
  · exact (C2_resolution_failure_is_fatal.2 ⟨"CCO", none, "analyze it"⟩
      ⟨.transportError, .ok ⟨none⟩⟩ (.err "x") .idle (by decide)).1

/-- C6: whenever identifier resolution succeeds, the two-stage lookup
performs exactly the identifier fetch, then a 200 millisecond delay (which
meets the at-least-200 requirement), then the property fetch. -/
theorem C6_delay_between_sequential_calls :
    ∀ s env c, (Pubchem.getCidBySmiles s env.cidResp).1 = some c →
      (Pubchem.getMoleculeBySmiles s env).2 =
        [PipelineEvent.cidFetch, PipelineEvent.delay 200, PipelineEvent.propFetch] ∧
      200 ≤ 200 := by
  intro s env c h
  have hc := getCidBySmiles_fst_pos h
  have hcle : ¬ c ≤ 0 := by omega
  have htrace : (Pubchem.getCidBySmiles s env.cidResp).2 = [PipelineEvent.cidFetch] := by
    by_cases hts : trimsToEmpty s
    · exfalso
      unfold Pubchem.getCidBySmiles at h
      rw [if_pos hts] at h
      simp at h
    · unfold Pubchem.getCidBySmiles
      rw [if_neg hts]
  refine ⟨?_, le_refl 200⟩
  simp [Pubchem.getMoleculeBySmiles, Pubchem.getPropertiesByCid, h, hcle, htrace]

/-- Witness for C6 at a concrete input: with a valid identifier response
the trace is the identifier fetch, the 200 millisecond delay, and the
property fetch, in that order. -/
theorem C6_witness :
    (Pubchem.getMoleculeBySmiles "CCO" ⟨.ok ⟨some [some 5]⟩, .transportError⟩).2 =
      [PipelineEvent.cidFetch, PipelineEvent.delay 200, PipelineEvent.propFetch] :=
  (C6_delay_between_sequential_calls "CCO" ⟨.ok ⟨some [some 5]⟩, .transportError⟩
    5 (by decide)).1

/-- C5: when the analysis flow throws after resolution succeeded, the
submit handler keeps the already-fetched PubChem details, reports the
failure only against the analysis stage (error message and failure toast),
and at that point no aggregate data had been attached, so nothing attached
is cleared. -/
theorem C5_synthesis_failure_preserves_structure :
    ∀ values env capturedStage mol msg,
      (Pubchem.getMoleculeBySmiles values.smiles env).1 = some mol →
      (AnalysisForm.onSubmit values env (.err msg) capturedStage).pubChemDetails = some mol ∧
      (AnalysisForm.onSubmit values env (.err msg) capturedStage).error = some msg ∧
      (AnalysisForm.onSubmit values env (.err msg) capturedStage).toasts =
        [.pubchemFetched mol.cid, .analysisFailed msg] ∧
      (AnalysisForm.onSubmit values env (.err msg) capturedStage).analysisResult = none := by
  intro values env capturedStage mol msg h
  simp only [AnalysisForm.onSubmit, h]
  exact ⟨trivial, trivial, trivial, trivial⟩

/-- Witness for C5 at a concrete input: after a successful resolution of
CID 5, a thrown analysis keeps the PubChem details and records the error. -/
theorem C5_witness :
    (AnalysisForm.onSubmit ⟨"CCO", none, "analyze it"⟩
        ⟨.ok ⟨some [some 5]⟩, .ok ⟨some [⟨some 5, some "C2H6O", none, some "CCO", some (.fin 46)⟩]⟩⟩
        (.err "model down") .idle).pubChemDetails =
      some ⟨5, "C2H6O", none, "CCO", .fin 46⟩ :=
  (C5_synthesis_failure_preserves_structure ⟨"CCO", none, "analyze it"⟩
    ⟨.ok ⟨some [some 5]⟩, .ok ⟨some [⟨some 5, some "C2H6O", none, some "CCO", some (.fin 46)⟩]⟩⟩
    .idle ⟨5, "C2H6O", none, "CCO", .fin 46⟩ "model down" (by decide)).1

/-- A property payload whose weight field parses to the finite but negative
value minus five; every truthiness guard and the NaN check pass on it. -/
def c3NegativeWeightPayload : Pubchem.PropPayload :=
  ⟨some [⟨some 7, some "C6H6", none, some "c1ccccc1", some (.fin (-5))⟩]⟩

/-- C3 counterexample: the property-fetch step accepts a payload whose
weight parses to minus five and produces a StructureRecord with a
non-positive weight, so Resolution does not guarantee a finite positive
weight — only the NaN case is rejected. -/
theorem C3_counterexample :
    (Pubchem.getPropertiesByCid 7 (.ok c3NegativeWeightPayload)).1 =
      some ⟨7, "C6H6", none, "c1ccccc1", JsNum.fin (-5)⟩ ∧
    ¬ (0 : ℚ) < -5 := by
  constructor
  · rfl
  · norm_num

/-- C3 (amended): if any essential field (identifier, formula, canonical
structure, weight) is missing from the payload, or the weight parses to
NaN, the property fetch returns null; consequently every produced record
has a nonzero identifier, non-empty formula and canonical-structure
fields, and a weight that is not NaN — though the weight need not be
finite or positive. -/
theorem C3_incomplete_data_fails :
    (∀ cid rest pr, pr.cid = none →
      (Pubchem.getPropertiesByCid cid (.ok ⟨some (pr :: rest)⟩)).1 = none) ∧
    (∀ cid rest pr, pr.molecularFormula = none →
      (Pubchem.getPropertiesByCid cid (.ok ⟨some (pr :: rest)⟩)).1 = none) ∧
    (∀ cid rest pr, pr.canonicalSmiles = none →
      (Pubchem.getPropertiesByCid cid (.ok ⟨some (pr :: rest)⟩)).1 = none) ∧
    (∀ cid rest pr, pr.molecularWeight = none →
      (Pubchem.getPropertiesByCid cid (.ok ⟨some (pr :: rest)⟩)).1 = none) ∧
    (∀ cid rest pr, pr.molecularWeight = some JsNum.nan →
      (Pubchem.getPropertiesByCid cid (.ok ⟨some (pr :: rest)⟩)).1 = none) ∧
    (∀ cid resp mol, (Pubchem.getPropertiesByCid cid resp).1 = some mol →
      0 < cid ∧ mol.cid ≠ 0 ∧ mol.molecularFormula ≠ "" ∧
      mol.canonicalSmiles ≠ "" ∧ mol.molecularWeight ≠ JsNum.nan) := by
  refine ⟨?_, ?_, ?_, ?_, ?_, ?_⟩
  · intro cid rest pr hf
    rcases pr with ⟨pc, pf, pi, ps, pw⟩
    simp only at hf
    subst hf
    unfold Pubchem.getPropertiesByCid
    split <;> rfl
  · intro cid rest pr hf
    rcases pr with ⟨pc, pf, pi, ps, pw⟩
    simp only at hf
    subst hf
    unfold Pubchem.getPropertiesByCid
    split
    · rfl
    · rcases pc with _ | c <;> rfl
  · intro cid rest pr hf
    rcases pr with ⟨pc, pf, pi, ps, pw⟩
    simp only at hf
    subst hf
    unfold Pubchem.getPropertiesByCid
    split
    · rfl
    · rcases pc with _ | c <;> rcases pf with _ | f <;> rfl
  · intro cid rest pr hf
    rcases pr with ⟨pc, pf, pi, ps, pw⟩
    simp only at hf
    subst hf
    unfold Pubchem.getPropertiesByCid
    split
    · rfl
    · rcases pc with _ | c <;> rcases pf with _ | f <;> rcases ps with _ | sm <;> rfl
  · intro cid rest pr hf
    rcases pr with ⟨pc, pf, pi, ps, pw⟩
    simp only at hf
    subst hf
    unfold Pubchem.getPropertiesByCid
    split
    · rfl
    · rcases pc with _ | c <;> rcases pf with _ | f <;> rcases ps with _ | sm <;>
        try rfl
      simp
  · intro cid resp mol h
    unfold Pubchem.getPropertiesByCid at h
    split at h
    · simp at h
    · next hpos =>
      refine ⟨by omega, ?_⟩
      simp only at h
      repeat' split at h
      all_goals simp_all
      all_goals subst h
      all_goals simp_all

/-- Witness for C3 (amended) at concrete inputs: a missing formula field
fails, and a complete payload yields a record with the guaranteed
fields. -/
theorem C3_witness :
    (Pubchem.getPropertiesByCid 5 (.ok ⟨some [⟨some 5, none, none, some "CCO", some (.fin 46)⟩]⟩)).1 = none ∧
    ((5:Int) ≠ 0 ∧ "C2H6O" ≠ "" ∧ "CCO" ≠ "" ∧ JsNum.fin 46 ≠ JsNum.nan) := by
  constructor
  · exact C3_incomplete_data_fails.2.1 5 [] ⟨some 5, none, none, some "CCO", some (.fin 46)⟩ rfl
  · have h := C3_incomplete_data_fails.2.2.2.2.2 5
      (.ok ⟨some [⟨some 5, some "C2H6O", none, some "CCO", some (.fin 46)⟩]⟩)
      ⟨5, "C2H6O", none, "CCO", .fin 46⟩ rfl
    exact ⟨h.2.1, h.2.2.1, h.2.2.2.1, h.2.2.2.2⟩

/-- C4: the Fan-out Aggregator records a non-success outcome of any one of
the three secondary lookups as an absent slot while leaving the other two
slots populated, for all three singleton-failure positions and for both
non-success kinds (NotFound and transient failure). -/
theorem C4_aggregator_slot_independence :
    ∀ (b : Drugbank.Drug) (p : Aggregator.PropertyPrediction)
      (m : Deeppurpose.DeepPurposeResult),
      ((Aggregator.aggregateLookups .notFound (.success p) (.success m)).property = some p ∧
       (Aggregator.aggregateLookups .notFound (.success p) (.success m)).mechanism = some m ∧
       (Aggregator.aggregateLookups .notFound (.success p) (.success m)).bioactivity = none) ∧
      ((Aggregator.aggregateLookups .transientFailure (.success p) (.success m)).property = some p ∧
       (Aggregator.aggregateLookups .transientFailure (.success p) (.success m)).mechanism = some m ∧
       (Aggregator.aggregateLookups .transientFailure (.success p) (.success m)).bioactivity = none) ∧
      ((Aggregator.aggregateLookups (.success b) .notFound (.success m)).bioactivity = some b ∧
       (Aggregator.aggregateLookups (.success b) .notFound (.success m)).mechanism = some m ∧
       (Aggregator.aggregateLookups (.success b) .notFound (.success m)).property = none) ∧
      ((Aggregator.aggregateLookups (.success b) .transientFailure (.success m)).bioactivity = some b ∧
       (Aggregator.aggregateLookups (.success b) .transientFailure (.success m)).mechanism = some m ∧
       (Aggregator.aggregateLookups (.success b) .transientFailure (.success m)).property = none) ∧
      ((Aggregator.aggregateLookups (.success b) (.success p) .notFound).bioactivity = some b ∧
       (Aggregator.aggregateLookups (.success b) (.success p) .notFound).property = some p ∧
       (Aggregator.aggregateLookups (.success b) (.success p) .notFound).mechanism = none) ∧
      ((Aggregator.aggregateLookups (.success b) (.success p) .transientFailure).bioactivity = some b ∧
       (Aggregator.aggregateLookups (.success b) (.success p) .transientFailure).property = some p ∧
       (Aggregator.aggregateLookups (.success b) (.success p) .transientFailure).mechanism = none) := by
  intro b p m
  exact ⟨⟨rfl, rfl, rfl⟩, ⟨rfl, rfl, rfl⟩, ⟨rfl, rfl, rfl⟩,
         ⟨rfl, rfl, rfl⟩, ⟨rfl, rfl, rfl⟩, ⟨rfl, rfl, rfl⟩⟩

/-- C7: the heuristic classifies the formula-like input C6H12O6 as a
formula, and when resolution fails on that input the submit handler raises
the toast carrying the looks-like-a-molecular-formula description rather
than the not-found description. -/
theorem C7_formula_heuristic_message :
    AnalysisForm.seemsLikeFormula "C6H12O6" = true ∧
    (∀ env analyze capturedStage targetProtein q,
      (Pubchem.getMoleculeBySmiles "C6H12O6" env).1 = none →
      (AnalysisForm.onSubmit ⟨"C6H12O6", targetProtein, q⟩ env analyze
          capturedStage).toasts =
        [AnalysisForm.ToastMsg.pubchemError
          (AnalysisForm.ErrorDescription.looksLikeFormula "C6H12O6")]) := by
  constructor
  · decide
  · intro env analyze capturedStage targetProtein q h
    simp only [AnalysisForm.onSubmit, h]
    rw [if_pos (by decide : AnalysisForm.seemsLikeFormula "C6H12O6" = true)]

/-- Witness for C7 at a concrete failing environment: a transport error on
the identifier lookup surfaces the formula hint for C6H12O6. -/
theorem C7_witness :
    (AnalysisForm.onSubmit ⟨"C6H12O6", none, "analyze it"⟩
        ⟨.transportError, .ok ⟨none⟩⟩ (.err "x") .idle).toasts =
      [AnalysisForm.ToastMsg.pubchemError
        (AnalysisForm.ErrorDescription.looksLikeFormula "C6H12O6")] :=
  C7_formula_heuristic_message.2 ⟨.transportError, .ok ⟨none⟩⟩ (.err "x") .idle
    none "analyze it" (by decide)

/-- C8 counterexample: the single-space string is empty after trimming,
yet the form schema accepts it (its untrimmed length is one), so the
schema does not reject every string that is empty after trimming. -/
theorem C8_counterexample :
    trimsToEmpty " " = true ∧
    AnalysisForm.formSchemaAccepts ⟨" ", none, "hello"⟩ = true := by
  decide

/-- C8 (amended): the empty string is rejected by the form schema, so the
submit handler never runs on it; for every string that is empty after
trimming — which the schema may still accept — the adapter guard returns
null without fetching, so in every such case the pipeline fails with no
network call issued and an error recorded. -/
theorem C8_empty_input_no_network :
    (∀ targetProtein q env analyze capturedStage,
      AnalysisForm.handleSubmit ⟨"", targetProtein, q⟩ env analyze
        capturedStage = none) ∧
    (∀ s r, trimsToEmpty s = true → Pubchem.getCidBySmiles s r = (none, [])) ∧
    (∀ values env analyze capturedStage, trimsToEmpty values.smiles = true →
      (AnalysisForm.onSubmit values env analyze capturedStage).trace = [] ∧
      (AnalysisForm.onSubmit values env analyze capturedStage).analysisResult = none ∧
      (AnalysisForm.onSubmit values env analyze capturedStage).error =
        some "Failed to fetch PubChem data. Check SMILES validity.") := by
  refine ⟨?_, ?_, ?_⟩
  · intro targetProtein q env analyze capturedStage
    simp [AnalysisForm.handleSubmit, AnalysisForm.formSchemaAccepts]
  · intro s r h
    unfold Pubchem.getCidBySmiles
    rw [if_pos h]
  · intro values env analyze capturedStage h
    have h1 : Pubchem.getCidBySmiles values.smiles env.cidResp = (none, []) := by
      unfold Pubchem.getCidBySmiles
      rw [if_pos h]
    have h2 : Pubchem.getMoleculeBySmiles values.smiles env = (none, []) := by
      simp [Pubchem.getMoleculeBySmiles, h1]
    simp [AnalysisForm.onSubmit, h2]

/-- Witness for C8 (amended) at the single-space input: the adapter guard
returns null with no fetch, and the handler records the failure with an
empty trace. -/
theorem C8_witness :
    Pubchem.getCidBySmiles " " .transportError = (none, []) ∧
    (AnalysisForm.onSubmit ⟨" ", none, "hello"⟩ ⟨.transportError, .ok ⟨none⟩⟩
        (.err "x") .idle).trace = [] := by
  constructor
  · exact C8_empty_input_no_network.2.1 " " .transportError (by decide)
  · exact (C8_empty_input_no_network.2.2 ⟨" ", none, "hello"⟩
      ⟨.transportError, .ok ⟨none⟩⟩ (.err "x") .idle (by decide)).1

/-- C9: every record the mock DeepPurpose service returns that carries a
confidence value has that value strictly between zero and one. -/
theorem C9_confidence_in_unit_interval :
    ∀ s r c, Deeppurpose.getDeepPurposeAnalysis s = some r →
      r.confidence = some c → 0 < c ∧ c < 1 := by
  intro s r c h hc
  unfold Deeppurpose.getDeepPurposeAnalysis at h
  rcases hm : Deeppurpose.mockDeepPurposeLookup s with _ | v
  · rw [hm] at h
    simp only [] at h
    split at h
    · injection h with h
      subst h
      simp only [Deeppurpose.genericPrediction, Option.some.injEq] at hc
      subst hc
      norm_num
    · exact absurd h (by simp)
  · rw [hm] at h
    simp only [Option.some.injEq] at h
    subst h
    unfold Deeppurpose.mockDeepPurposeLookup at hm
    repeat' split at hm
    all_goals simp only [Option.some.injEq, reduceCtorEq] at hm
    all_goals (subst hm; simp only [Option.some.injEq] at hc; subst hc; norm_num)

/-- Witness for C9 at the benzene entry, whose confidence is six tenths. -/
theorem C9_witness : (0:ℚ) < 6/10 ∧ (6/10:ℚ) < 1 :=
  C9_confidence_in_unit_interval "c1ccccc1"
    ⟨"Predicted as a potential solvent or basic aromatic building block. Low likelihood of direct therapeutic purpose based on structure alone.",
     some (6/10)⟩ (6/10) rfl rfl

/-- C10: for a SMILES string that is not a key of the mock table, the mock
DeepPurpose service returns null exactly when the string has at most ten
characters, and for longer unknown strings it returns the fixed generic
prediction, whose confidence is one half. -/
theorem C10_unknown_smiles_length_gate :
    ∀ s, Deeppurpose.mockDeepPurposeLookup s = none →
      ((Deeppurpose.getDeepPurposeAnalysis s = none ↔ s.length ≤ 10) ∧
       (10 < s.length →
        Deeppurpose.getDeepPurposeAnalysis s = some Deeppurpose.genericPrediction) ∧
       Deeppurpose.genericPrediction.confidence = some (1/2)) := by
  intro s h
  unfold Deeppurpose.getDeepPurposeAnalysis
  rw [h]
  refine ⟨⟨?_, ?_⟩, ?_, rfl⟩
  · intro hn
    by_cases hl : 10 < s.length
    · rw [if_pos hl] at hn
      exact absurd hn (by simp)
    · omega
  · intro hle
    rw [if_neg (by omega)]
  · intro hgt
    rw [if_pos hgt]

/-- Witness for C10 at two concrete unknown strings: the two-character
string yields null and an eleven-character string yields the generic
prediction. -/
theorem C10_witness :
    Deeppurpose.getDeepPurposeAnalysis "CC" = none ∧
    Deeppurpose.getDeepPurposeAnalysis "CCCCCCCCCCC" =
      some Deeppurpose.genericPrediction := by
  constructor
  · exact (C10_unknown_smiles_length_gate "CC" rfl).1.mpr (by decide)
  · exact (C10_unknown_smiles_length_gate "CCCCCCCCCCC" rfl).2.1 (by decide)
